import Mathlib

/-!
Verification of the core protocol stack of `nissan-leaf-obd-ble`
(a BLE-serial OBD-II / ELM327 driver for the Nissan Leaf).

The Python sources are shallowly embedded: pure functions become Lean
functions, stateful methods become explicit state passing, byte strings
become `List Nat`, Python exceptions become `Except PyErr`, and the
asynchronous transport is abstracted by explicit response scripts /
arrival schedules consumed in order.
-/

namespace NissanLeafObdBle

/-- Python runtime errors raised by the embedded code paths. -/
inductive PyErr where
  | typeError
  | indexError
  | attributeError
  deriving DecidableEq, Repr

/-- Connection status flags (elm327.py, class OBDStatus). -/
inductive OBDStatus where
  | notConnected
  | elmConnected
  | obdConnected
  | carConnected
  deriving DecidableEq, Repr

/-- Position of a status in the forward chain
`NOT_CONNECTED → ELM_CONNECTED → OBD_CONNECTED → CAR_CONNECTED`. -/
def OBDStatus.rank : OBDStatus → Nat
  | .notConnected => 0
  | .elmConnected => 1
  | .obdConnected => 2
  | .carConnected => 3

/-- One parsed line of OBD output (protocols/protocol.py, class Frame).
The constructor preloads `raw`; the protocol-variant parser fills the
remaining fields. -/
structure Frame where
  raw : String
  data : List Nat := []
  priority : Option Nat := none
  addr_mode : Option Nat := none
  rx_id : Option Nat := none
  tx_id : Option Nat := none
  frame_type : Option Nat := none
  seq_index : Nat := 0
  data_len : Option Nat := none
  deriving DecidableEq, Repr

/-- A fully parsed OBD message of one or more frames
(protocols/protocol.py, class Message). -/
structure Message where
  frames : List Frame
  data : List Nat := []
  deriving DecidableEq, Repr

/-- Message.tx_id (protocols/protocol.py): `None` for an empty frame list,
otherwise the first frame's `tx_id`. -/
def Message.txid (m : Message) : Option Nat :=
  match m.frames with
  | [] => none
  | f :: _ => f.tx_id

/-- Message.raw (protocols/protocol.py): the original raw input,
newline-joined over the frames. -/
def Message.rawStr (m : Message) : String :=
  String.intercalate "\n" (m.frames.map (·.raw))

/-! ### decoders.py -/

/-- decoders.power_switch: `d = messages[0].data; v = d[4] & 0x80 == 0x80`.
Indexing `messages[0]` or `d[4]` out of range raises `IndexError`. -/
def power_switch (messages : List Message) : Except PyErr (String × Bool) :=
  match messages with
  | [] => .error .indexError
  | m :: _ =>
    match m.data[4]? with
    | none => .error .indexError
    | some b => .ok ("power_switch", Nat.land b 0x80 == 0x80)

/-- decoders.gear_position: `match d[3]` over the gear byte.
Indexing `messages[0]` or `d[3]` out of range raises `IndexError`. -/
def gear_position (messages : List Message) : Except PyErr (String × String) :=
  match messages with
  | [] => .error .indexError
  | m :: _ =>
    match m.data[3]? with
    | none => .error .indexError
    | some b =>
      .ok ("gear_position",
        if b = 1 then "Park"
        else if b = 2 then "Reverse"
        else if b = 3 then "Neutral"
        else if b = 4 then "Drive"
        else if b = 5 then "Eco"
        else "Unknown")

/-- decoders.eco_mode: the source line is `v = d[3] == 0x10 | d[3] == 0x11`.
`|` binds tighter than `==`, and Python `==` chains, so this evaluates as
`(d[3] == (0x10 | d[3])) and ((0x10 | d[3]) == 0x11)`. -/
def eco_mode (messages : List Message) : Except PyErr (String × Bool) :=
  match messages with
  | [] => .error .indexError
  | m :: _ =>
    match m.data[3]? with
    | none => .error .indexError
    | some b => .ok ("eco_mode", (b == Nat.lor 0x10 b) && (Nat.lor 0x10 b == 0x11))

/-- Modelled from the spec: the intended contract for the `eco_mode`
decoder, "byte equals 0x10 or 0x11" (spec §9, Design Notes). -/
def ecoModeIntended (b : Nat) : Bool :=
  b == 0x10 || b == 0x11

/-! ### bleserial.py — the BLE serial transport's read path

`bleserial.read(size)` (bleserial.py 201-213) runs
`while len(self._rx_buffer) < size: await asyncio.sleep(0.01)` and then
slices the first `size` bytes off the head of the buffer.  Notification
callbacks (`_notification_handler`, lines 93-96) extend the tail of the
buffer while the loop sleeps.  The loop consults no timeout of any kind
(unlike `readline`, which wraps its wait in `asyncio.wait_for`). -/

/-- The availability check and head slice of bleserial.read
(bleserial.py 205-208): `none` means fewer than `size` bytes are
buffered, so the loop keeps polling. -/
def read_slice (buf : List Nat) (size : Nat) : Option (List Nat × List Nat) :=
  if buf.length < size then none else some (buf.take size, buf.drop size)

/-- bleserial.read's polling loop. `arr` lists the byte chunks appended by
`_notification_handler` during successive sleep ticks; `none` means the
loop is still polling after every listed tick (the code never stops
waiting on its own, since `read` consults no timeout). -/
def read_poll (buf : List Nat) (size : Nat) : List (List Nat) → Option (List Nat × List Nat)
  | [] => read_slice buf size
  | a :: rest =>
    match read_slice buf size with
    | some r => some r
    | none => read_poll (buf ++ a) size rest

/-! ### obd.py — the command dispatcher (class OBD) -/

/-- Modelled from the spec: the Command descriptor of §3 (the repository's
OBDCommand.py is not under src/; commands.py only instantiates it).  Name,
description, wire byte string `command`, expected reply byte count,
decoder reference (an identity token here, since command/decoder
comparisons are referential), optional required bus header, and the
"fast" eligibility flag. -/
structure OBDCommand where
  name : String
  desc : String
  command : List Nat
  reply_bytes : Nat
  decoder_id : Nat
  fast : Bool
  header : List Nat
  deriving DecidableEq, Repr

/-- The bytes of an ASCII string, as Python's `str.encode` yields them. -/
def strBytes (s : String) : List Nat :=
  s.toList.map Char.toNat

/-- Python's `str(n).encode()` for a natural number: its decimal digits as
ASCII bytes. -/
def pyStrNat (n : Nat) : List Nat :=
  (Nat.toDigits 10 n).map Char.toNat

/-- The result of one query (OBDResponse.py, class OBDResponse):
`OBDResponse()` with no arguments is the empty response (no messages,
null value).  `α` is the decoder's result type. -/
structure OBDResponse (α : Type) where
  messages : List Message
  value : Option α
  deriving DecidableEq, Repr

/-- The empty `OBDResponse()` (null value, empty message list). -/
def OBDResponse.empty {α : Type} : OBDResponse α := ⟨[], none⟩

/-- The mutable per-session fields of the OBD dispatcher (obd.py
`__init__`): global fast switch, last-set header memo and the learned
frame-count cache (a dictionary keyed by command identity, embedded as an
association list). -/
structure OBDState where
  status : OBDStatus
  fast : Bool
  last_header : Option (List Nat)
  frame_counts : List (OBDCommand × Nat)
  deriving DecidableEq, Repr

/-- Lookup in the frame-count cache (`cmd in self.__frame_counts` /
`self.__frame_counts[cmd]`). -/
def frameLookup (fc : List (OBDCommand × Nat)) (cmd : OBDCommand) : Option Nat :=
  (fc.find? (fun p => p.1 == cmd)).map (·.2)

/-- OBD.__build_command_string (obd.py 210-220): start from the command's
wire bytes and, when the global fast switch is on, the command is marked
fast and a frame count was previously recorded for it, append
`str(count).encode()`. -/
def build_command_string (st : OBDState) (cmd : OBDCommand) : List Nat :=
  match frameLookup st.frame_counts cmd with
  | some n => if st.fast && cmd.fast then cmd.command ++ pyStrNat n else cmd.command
  | none => cmd.command

/-- The newline join of raw message strings used to test for an "OK"
acknowledgement (obd.py 99, 107, 115, 123). -/
def joinedRaw (r : List Message) : String :=
  String.intercalate "\n" (r.map Message.rawStr)

/-- OBD.__set_header (obd.py 92-127): skip if the header equals the
last-set one; otherwise a 4-step AT sub-sequence, each step aborting
silently unless it returns data joining to exactly "OK"; the memo is
updated only when all four steps acknowledge.  `send` abstracts
`self.interface.send_and_parse` (the adapter session plus transport). -/
def set_header (send : List Nat → List Message) (st : OBDState) (header : List Nat) : OBDState :=
  if st.last_header = some header then st
  else
    let r := send (strBytes "AT SH " ++ header ++ strBytes " ")
    if r = [] then st
    else if joinedRaw r ≠ "OK" then st
    else
      let r := send (strBytes "AT FC SH " ++ header ++ strBytes " ")
      if r = [] then st
      else if joinedRaw r ≠ "OK" then st
      else
        let r := send (strBytes "AT FC SD 30 00 00")
        if r = [] then st
        else if joinedRaw r ≠ "OK" then st
        else
          let r := send (strBytes "AT FC SM 1")
          if r = [] then st
          else if joinedRaw r ≠ "OK" then st
          else { st with last_header := some header }

/-- The Python int value of `(m.raw == "NO DATA") | (m.raw == "CAN ERROR")`
in obd.py 204, reading `m.raw` as the message's raw string.  (In the
source `m.raw` is in fact the unbound method object, so both comparisons
are always False; either way the enclosing `0 & _` absorbs the value.) -/
def noDataFlag (m : Message) : Nat :=
  Nat.lor (if m.rawStr = "NO DATA" then 1 else 0) (if m.rawStr = "CAN ERROR" then 1 else 0)

/-- OBD.query (obd.py 175-208).  Control flow of the source, line by line:
status NOT_CONNECTED fails fast with an empty response; otherwise an
unforced query evaluates `self.test_cmd(cmd)` — an attribute that is not
defined anywhere in the OBD class, so the lookup raises AttributeError;
then the header preamble, the wire string, `send_and_parse`, the
iteration over `messages[0].frames` (IndexError on an empty batch), the
frame-count recording, the dead `if not messages` check, the
empty-payload guard `len(m.data) == 0 & (...)` — which by Python
precedence compares `len(m.data)` with `0 & flag = 0` — and finally
`cmd(messages)`, which per the spec (§4.4) invokes the command's decoder
on the messages and wraps the result in a Response. -/
def query {α : Type} (send : List Nat → List Message) (decode : List Message → Option α)
    (st : OBDState) (cmd : OBDCommand) (force : Bool) :
    Except PyErr (OBDResponse α × OBDState) :=
  if st.status = .notConnected then .ok (OBDResponse.empty, st)
  else if force = false then .error .attributeError
  else
    let st := set_header send st cmd.header
    let cmd_string := build_command_string st cmd
    let messages := send cmd_string
    match messages with
    | [] => .error .indexError
    | _ :: _ =>
      let st :=
        if (frameLookup st.frame_counts cmd).isNone then
          { st with frame_counts := st.frame_counts ++ [(cmd, (messages.map (·.frames.length)).sum)] }
        else st
      if messages = [] then .ok (OBDResponse.empty, st)
      else if messages.any (fun m => m.data.length == Nat.land 0 (noDataFlag m)) then
        .ok (OBDResponse.empty, st)
      else .ok (⟨messages, decode messages⟩, st)

/-! ### elm327.py × bleserial.py — constructing the session transport -/

/-- GATT service UUID for the LeLink dongle (elm327.py 112). -/
def SERVICE_UUID : String := "0000ffe0-0000-1000-8000-00805f9b34fb"

/-- GATT characteristic UUID for the LeLink dongle (elm327.py 113). -/
def CHARACTERISTIC_UUID : String := "0000ffe1-0000-1000-8000-00805f9b34fb"

/-- The positional parameters of bleserial.__init__ after `self`
(bleserial.py 26-32); none of them has a default value. -/
def bleserial_init_params : List String :=
  ["ble_device", "service_uuid", "characteristic_uuid_read", "characteristic_uuid_write"]

/-- Python positional call binding: an argument count different from the
required parameter count (there are no defaults or varargs here) raises
TypeError before the callee body runs. -/
def pyBindPositional (params : List String) (args : List String) : Except PyErr Unit :=
  if args.length = params.length then .ok () else .error .typeError

/-- Transport-level BLE operations; used to record that no BLE
communication happens on a code path. -/
inductive BLEOp where
  | openPort
  | startNotify
  | writeGatt
  deriving DecidableEq, Repr

/-- The fields ELM327.__init__ assembles before finishing. -/
structure ElmInitFields where
  status : OBDStatus
  low_power : Bool
  timeout : Int
  port_args : List String
  deriving DecidableEq, Repr

/-- ELM327.__init__ (elm327.py 115-125): assigns status NOT_CONNECTED, an
unknown protocol, low_power False and the timeout, then constructs the
bleserial port passing the three positional arguments
`(device, SERVICE_UUID, CHARACTERISTIC_UUID)` to the four-parameter
constructor.  The second component lists the BLE operations performed up
to the result (construction itself opens nothing). -/
def elm327_init (device : String) (timeout : Int) :
    Except PyErr ElmInitFields × List BLEOp :=
  let args := [device, SERVICE_UUID, CHARACTERISTIC_UUID]
  match pyBindPositional bleserial_init_params args with
  | .error e => (.error e, [])
  | .ok _ => (.ok ⟨.notConnected, false, timeout, args⟩, [])

/-- ELM327.create (elm327.py 127-151): `self = cls(device, timeout)` runs
before the try/except that guards the port open, so a constructor
exception propagates out of create; the port open — the first BLE
operation — would only happen afterwards.  (The full initialization
sequence past the open is modelled separately by `elmCreate` below with
the transport abstracted.) -/
def elm327_create (device : String) (timeout : Int) :
    Except PyErr ElmInitFields × List BLEOp :=
  match elm327_init device timeout with
  | (.error e, ops) => (.error e, ops)
  | (.ok st, ops) => (.ok st, ops ++ [BLEOp.openPort])

/-- OBD.create → OBD.__connect (obd.py 61-90): instantiates the interface
through ELM327.create; a constructor exception propagates. -/
def obd_create (device : String) (timeout : Int) :
    Except PyErr ElmInitFields × List BLEOp :=
  match elm327_create device timeout with
  | (.error e, ops) => (.error e, ops)
  | (.ok st, ops) => (.ok st, ops)

/-! ### protocols/protocol.py — Protocol.__call__ -/

/-- Membership in Python's `string.hexdigits` (utils.py 37-39). -/
def isHexChar (c : Char) : Bool :=
  c.isDigit || ('a' ≤ c && c ≤ 'f') || ('A' ≤ c && c ≤ 'F')

/-- utils.isHex: every character is a hex digit (vacuously true for the
empty string, as Python's `all` is). -/
def isHex (s : String) : Bool :=
  s.toList.all isHexChar

/-- Space removal, `line.replace(" ", "")`, as used in protocol.py 136. -/
def despace (s : String) : String :=
  ⟨s.toList.filter (fun c => c ≠ ' ')⟩

/-- The key order for `sorted(frames_by_ECU.keys())` (protocol.py 166).
Keys are frame `tx_id` fields.  (A parser that left `tx_id` as None
together with integer keys would make Python's sorted raise; the
embedding totalizes that corner by ordering None first.) -/
def keyLe (a b : Option Nat) : Bool :=
  match a, b with
  | none, _ => true
  | some _, none => false
  | some x, some y => x ≤ y

/-- The hex-only lines, space-scrubbed (protocol.py 135-139). -/
def obdLines (lines : List String) : List String :=
  lines.filterMap (fun line =>
    let s := despace line
    if isHex s then some s else none)

/-- The non-hex lines, passed through un-scrubbed (protocol.py 140-141). -/
def nonObdLines (lines : List String) : List String :=
  lines.filter (fun line => !(isHex (despace line)))

/-- Frames parsed from the hex lines: each line preloads a Frame, the
protocol-variant hook parses it or drops it (protocol.py 146-153). -/
def parsedFrames (parse_frame : Frame → Option Frame) (lines : List String) : List Frame :=
  (obdLines lines).filterMap (fun line => parse_frame { raw := line })

/-- The frames grouped for one ECU key, in first-appearance order
(protocol.py 157-162). -/
def ecuGroup (frames : List Frame) (k : Option Nat) : List Frame :=
  frames.filter (fun f => f.tx_id == k)

/-- The loop body of protocol.py 166-173 for one ECU key: build the
Message from that ECU's frames and let the protocol-variant hook
reassemble its payload or drop it. -/
def ecuMessage (parse_message : List Frame → Option (List Nat)) (frames : List Frame)
    (k : Option Nat) : Option Message :=
  (parse_message (ecuGroup frames k)).map
    (fun d => ({ frames := ecuGroup frames k, data := d } : Message))

/-- The diagnostic messages: one single-frame Message per non-hex line,
in original line order (protocol.py 177-179). -/
def diagMessages (lines : List String) : List Message :=
  (nonObdLines lines).map (fun line => ({ frames := [{ raw := line }], data := [] } : Message))

/-- Protocol.__call__ (protocol.py 121-180), polymorphic over the
protocol-variant hooks: `parse_frame` embeds `_parse_frame` (parse the
preloaded Frame or drop it); `parse_message` embeds `_parse_message`
(reassemble the grouped frames' payload or drop the message; in the
source it mutates `message.data` and returns a bool).  Hex lines are
parsed into frames, grouped by `tx_id`, reduced per ECU in ascending key
order, and the non-hex lines are appended as their own messages. -/
def protocolCall (parse_frame : Frame → Option Frame)
    (parse_message : List Frame → Option (List Nat)) (lines : List String) : List Message :=
  let frames := parsedFrames parse_frame lines
  let sortedKeys := ((frames.map (·.tx_id)).dedup).mergeSort keyLe
  sortedKeys.filterMap (ecuMessage parse_message frames) ++ diagMessages lines

/-! ### elm327.py — the adapter session state machine

The transport is abstracted by a script of outcomes consumed in order:
one entry per `__send` (i.e. per `__read` of an adapter response).  An
`ioFail` entry models the device dying during that exchange: `__write` /
`__read` catch the exception, set status NOT_CONNECTED, close the port
and produce no lines (elm327.py 469-474, 495-500); the exception does
not propagate.  When the port is gone, `__write` is a no-op and `__read`
returns `[]` without consuming anything (elm327.py 475-476, 485-487). -/

/-- One scripted adapter exchange: the response lines of a `__send`, or a
device failure during it. -/
inductive SendOutcome where
  | ioFail
  | lines (ls : List String)
  deriving DecidableEq, Repr

/-- The session state of ELM327 (elm327.py `__init__` fields), plus the
remaining response script and the history of every value assigned to
`__status` (earliest first, starting with the constructor's). -/
structure ElmState where
  status : OBDStatus
  port : Bool
  low_power : Bool
  protocolId : Option String
  script : List SendOutcome
  trace : List OBDStatus
  deriving DecidableEq, Repr

/-- Assign `self.__status` and record it in the trace. -/
def setStatus (st : ElmState) (s : OBDStatus) : ElmState :=
  { st with status := s, trace := st.trace ++ [s] }

/-- ELM327.__send / __write / __read (elm327.py 434-529): consume the
next scripted exchange when the port is alive; an I/O failure flips the
status to NOT_CONNECTED and closes the port; with no port, no lines come
back and nothing is consumed. -/
def elmSend (st : ElmState) : ElmState × List String :=
  if st.port then
    match st.script with
    | [] => (st, [])
    | .ioFail :: rest => (setStatus { st with script := rest, port := false } .notConnected, [])
    | .lines ls :: rest => ({ st with script := rest }, ls)
  else (st, [])

/-- ELM327.close (elm327.py 399-409): status NOT_CONNECTED, protocol
cleared, port torn down. -/
def elmClose (st : ElmState) : ElmState :=
  let st := setStatus st .notConnected
  { st with protocolId := none, port := false }

/-- ELM327.__error (elm327.py 325-328): close and log. -/
def elmError (st : ElmState) : ElmState :=
  elmClose st

/-- Python's `needle in hay` substring test over character lists. -/
def containsSeq (needle : List Char) : List Char → Bool
  | [] => needle.isEmpty
  | c :: tl => needle.isPrefixOf (c :: tl) || containsSeq needle tl

/-- ELM327.__has_message (elm327.py 319-323): some line contains the text
as a substring. -/
def has_message (lines : List String) (text : String) : Bool :=
  lines.any (fun line => containsSeq text.toList line.toList)

/-- ELM327.__isok (elm327.py 310-317). -/
def isok (lines : List String) (expectEcho : Bool) : Bool :=
  if lines = [] then false
  else if expectEcho then has_message lines "OK"
  else lines.length == 1 && lines.head? == some "OK"

/-- One acknowledged initialization command (the ATE0/ATSP6/ATH1/ATL0/
ATS0/ATCAF0 steps of ELM327.create): send, require `__isok`, else
`__error` and return early. -/
def stepOkCmd (expectEcho : Bool) (st : ElmState) : Except ElmState ElmState :=
  let p := elmSend st
  if isok p.2 expectEcho then .ok p.1 else .error (elmError p.1)

/-- The keys of _SUPPORTED_PROTOCOLS (elm327.py 78-95). -/
def SUPPORTED_PROTOCOLS : List String :=
  ["1", "2", "3", "4", "5", "6", "7", "8", "9", "A"]

/-- _TRY_PROTOCOL_ORDER (elm327.py 98-109). -/
def TRY_PROTOCOL_ORDER : List String :=
  ["6", "8", "1", "7", "9", "2", "3", "4", "5", "A"]

/-- ELM327._manual_protocol (elm327.py 248-257): force the protocol, probe
with 0100, succeed unless the probe says UNABLE TO CONNECT. -/
def manual_protocol (st : ElmState) (p : String) : ElmState × Bool :=
  let st := (elmSend st).1
  let probe := elmSend st
  if !(has_message probe.2 "UNABLE TO CONNECT") then
    ({ probe.1 with protocolId := some p }, true)
  else (probe.1, false)

/-- The fallback loop of ELM327.auto_protocol (elm327.py 298-304): try
each candidate with ATTP then probe with 0100. -/
def try_protocols (st : ElmState) : List String → ElmState × Bool
  | [] => (st, false)
  | p :: rest =>
    let st1 := (elmSend st).1
    let probe := elmSend st1
    if !(has_message probe.2 "UNABLE TO CONNECT") then
      ({ probe.1 with protocolId := some p }, true)
    else try_protocols probe.1 rest

/-- ELM327.auto_protocol (elm327.py 259-308): ATSP0, probe 0100, read the
adapter's protocol number with ATDPN (strip a leading "A"), accept a
known id, else fall back to the candidate list. -/
def auto_protocol (st : ElmState) : ElmState × Bool :=
  let st1 := (elmSend st).1
  let probe := elmSend st1
  if has_message probe.2 "UNABLE TO CONNECT" then (probe.1, false)
  else
    let dpn := elmSend probe.1
    if dpn.2.length ≠ 1 then (dpn.1, false)
    else
      let p0 := dpn.2.headD ""
      let p := if p0.length > 1 && p0.startsWith "A" then p0.drop 1 else p0
      if p ∈ SUPPORTED_PROTOCOLS then ({ dpn.1 with protocolId := some p }, true)
      else try_protocols dpn.1 TRY_PROTOCOL_ORDER

/-- ELM327.set_protocol (elm327.py 235-246). -/
def set_protocol (st : ElmState) (protocol_ : Option String) : ElmState × Bool :=
  match protocol_ with
  | some p =>
    if p ∉ SUPPORTED_PROTOCOLS then (st, false)
    else manual_protocol st p
  | none => auto_protocol st

/-- The tail of ELM327.create (elm327.py 221-233): try to reach the car
and, on success, advance to CAR_CONNECTED. -/
def finishProtocol (st : ElmState) (protocol_ : Option String) : ElmState :=
  let p := set_protocol st protocol_
  if p.2 then setStatus p.1 .carConnected else p.1

/-- The voltage check of ELM327.create (elm327.py 205-219): send AT RV;
malformed or missing answers are fatal; an unparsable float is fatal; a
voltage below 6 returns early (leaving the status as it was); otherwise
advance to OBD_CONNECTED.  `parseVolt` abstracts Python's float parse of
`r[0].lower().replace("v", "")`. -/
def voltageStep (parseVolt : String → Option Int) (st : ElmState) :
    Except ElmState ElmState :=
  let p := elmSend st
  if p.2 = [] ∨ p.2.length ≠ 1 ∨ p.2.headD "" = "" then .error (elmError p.1)
  else
    match parseVolt ((p.2.headD "").toLower.replace "v" "") with
    | none => .error (elmError p.1)
    | some v => if v < 6 then .error p.1 else .ok (setStatus p.1 .obdConnected)

/-- The fresh session state built by ELM327.__init__ (with the transport
abstracted; the constructor's own arity bug is treated separately). -/
def elmInit (script : List SendOutcome) : ElmState :=
  { status := .notConnected, port := false, low_power := false,
    protocolId := none, script := script, trace := [.notConnected] }

/-- Sequencing of one acknowledged initialization command with the rest
of the sequence: a failure returns early with the error state. -/
def seqStep (e : Bool) (st : ElmState) (rest : ElmState → Except ElmState ElmState) :
    Except ElmState ElmState :=
  match stepOkCmd e st with
  | .error st => .error st
  | .ok st => rest st

/-- The six acknowledged initialization commands of ELM327.create
(elm327.py 166-200): ATE0 (allowing a leftover echo), ATSP6, ATH1, ATL0,
ATS0, ATCAF0. -/
def initChain (st : ElmState) : Except ElmState ElmState :=
  seqStep true st fun st =>
  seqStep false st fun st =>
  seqStep false st fun st =>
  seqStep false st fun st =>
  seqStep false st fun st =>
  stepOkCmd false st

/-- ELM327.create (elm327.py 127-233) over the abstracted transport:
open the port (failure returns the fresh state), send ATZ ignoring its
reply, run the six acknowledged initialization commands (ATE0 expects a
possible echo), advance to ELM_CONNECTED, optionally check the supply
voltage and advance to OBD_CONNECTED, then negotiate the protocol and on
success advance to CAR_CONNECTED. -/
def elmCreate (openOk : Bool) (protocol_ : Option String) (check_voltage : Bool)
    (parseVolt : String → Option Int) (script : List SendOutcome) : ElmState :=
  let st := elmInit script
  if !openOk then st
  else
    let st := { st with port := true }
    let st := (elmSend st).1
    match initChain st with
    | .error st => st
    | .ok st =>
      let st := setStatus st .elmConnected
      match (if check_voltage then voltageStep parseVolt st else .ok st) with
      | .error st => st
      | .ok st => finishProtocol st protocol_

/-- ELM_LP_ACTIVE (elm327.py 75-76): the acknowledgement that low power
is becoming active.  In the source it is literally `b"OK"`. -/
def ELM_LP_ACTIVE : String := "OK"

/-- ELM327.low_power (elm327.py 345-372): refuse when unconnected, send
ATLP reading up to the ELM_LP_ACTIVE end marker, and record low-power
mode when the response contains a line equal to "OK" (`"OK" in lines` is
Python list membership). -/
def low_power (st : ElmState) : ElmState × Option (List String) :=
  if st.status = .notConnected then (st, none)
  else
    let p := elmSend st
    if p.2.contains "OK" then ({ p.1 with low_power := true }, some p.2)
    else (p.1, some p.2)

/-- One step of the status history is forward in rank, or a reset to
NOT_CONNECTED. -/
def statusStepOk (a b : OBDStatus) : Prop :=
  b = .notConnected ∨ a.rank ≤ b.rank

/-- Forward-or-reset property of a whole status history. -/
def TraceOk (t : List OBDStatus) : Prop :=
  t.Chain' statusStepOk

/-- Session-state invariant: the history is nonempty, ends at the current
status, and is forward-or-reset throughout. -/
def ElmInv (st : ElmState) : Prop :=
  st.trace ≠ [] ∧ st.trace.getLast? = some st.status ∧ TraceOk st.trace

/-- Value of one hex digit character. -/
def hexDigitVal (c : Char) : Nat :=
  if c.isDigit then c.toNat - 48
  else if 'a' ≤ c && c ≤ 'f' then c.toNat - 87
  else if 'A' ≤ c && c ≤ 'F' then c.toNat - 55
  else 0

/-- A demonstration protocol-variant frame hook used to exercise the
generic layer on concrete input: accept every preloaded frame, reading
its source id from the line's first three hex digits (the position the
11-bit CAN header occupies). -/
def demoParseFrame (f : Frame) : Option Frame :=
  some { f with tx_id := some (((f.raw.toList.take 3).foldl (fun a c => 16 * a + hexDigitVal c) 0)) }

/-- A demonstration protocol-variant message hook: reassembly always
succeeds with an empty payload. -/
def demoParseMessage (_grp : List Frame) : Option (List Nat) :=
  some []

/-! ### Theorems -/

/-- C8. The eco_mode decoder does not satisfy the intended contract
"true exactly when d[3] is 0x10 or 0x11": at d[3] = 0x10 the code's
chained comparison yields false while the intended contract yields true. -/
theorem eco_mode_diverges_from_intended_contract :
    eco_mode [{ frames := [], data := [0, 0, 0, 0x10] }] = .ok ("eco_mode", false) ∧
    ecoModeIntended 0x10 = true ∧
    eco_mode [{ frames := [], data := [0, 0, 0, 0x11] }] = .ok ("eco_mode", true) :=
  ⟨rfl, rfl, rfl⟩

/-- C3 counterexample. gear_position and power_switch applied to a message
with empty payload raise IndexError; they do not return a null value. -/
theorem decoders_raise_on_empty_payload :
    gear_position [{ frames := [], data := [] }] = .error .indexError ∧
    power_switch [{ frames := [], data := [] }] = .error .indexError :=
  ⟨rfl, rfl⟩

/-- C3 amended. gear_position returns normally exactly when the first
message's payload has at least 4 bytes, and power_switch exactly when it
has at least 5 bytes; on shorter (truncated or empty) payloads each
raises IndexError rather than returning a null value. -/
theorem decoders_truncation_behaviour (m : Message) (rest : List Message) :
    (m.data.length < 4 → gear_position (m :: rest) = .error .indexError) ∧
    (4 ≤ m.data.length → ∃ v, gear_position (m :: rest) = .ok ("gear_position", v)) ∧
    (m.data.length < 5 → power_switch (m :: rest) = .error .indexError) ∧
    (5 ≤ m.data.length → ∃ v, power_switch (m :: rest) = .ok ("power_switch", v)) := by
  refine ⟨fun h => ?_, fun h => ?_, fun h => ?_, fun h => ?_⟩
  · simp [gear_position, List.getElem?_eq_none (show m.data.length ≤ 3 by omega)]
  · have h3 : 3 < m.data.length := by omega
    simp [gear_position, List.getElem?_eq_getElem h3]
  · simp [power_switch, List.getElem?_eq_none (show m.data.length ≤ 4 by omega)]
  · have h4 : 4 < m.data.length := by omega
    simp [power_switch, List.getElem?_eq_getElem h4]

/-- C3 witness. The amended truncation behaviour at a concrete message
with a 5-byte payload and at a concrete empty payload. -/
theorem decoders_truncation_behaviour_witness :
    ((4 : Nat) ≤ 5 ∧ ∃ v, gear_position [{ frames := [], data := [1, 2, 3, 4, 5] }] = .ok ("gear_position", v)) ∧
    ((0 : Nat) < 4 ∧ gear_position [{ frames := [], data := [] }] = .error .indexError) := by
  constructor
  · exact ⟨by decide, (decoders_truncation_behaviour { frames := [], data := [1, 2, 3, 4, 5] } []).2.1 (by decide)⟩
  · exact ⟨by decide, (decoders_truncation_behaviour { frames := [], data := [] } []).1 (by decide)⟩

/-- Helper: with an empty buffer, a positive request and no arriving
bytes, the polling loop of bleserial.read never produces a result, no
matter how many sleep ticks elapse. -/
theorem read_poll_no_arrivals (size : Nat) (hs : 0 < size) :
    ∀ n : Nat, read_poll [] size (List.replicate n []) = none := by
  intro n
  induction n with
  | zero => simp [read_poll, read_slice, hs]
  | succ k ih =>
    simp only [List.replicate_succ, read_poll, read_slice]
    simp only [List.length_nil, if_pos hs, List.append_nil]
    exact ih

/-- C7 counterexample. With the default read timeout of 0.1 s (10 sleep
ticks of 0.01 s) configured, an empty buffer and no arriving
notifications, bleserial.read(1) is still suspended after 1000 ticks
(10 s): the read loop never consults the configured timeout, so it does
not return when the timeout elapses. -/
theorem read_ignores_configured_timeout :
    read_poll [] 1 (List.replicate 1000 []) = none :=
  read_poll_no_arrivals 1 (by decide) 1000

/-- Helper: what a successful buffer slice means. -/
theorem read_slice_eq_some {buf : List Nat} {size : Nat} {r : List Nat × List Nat}
    (h : read_slice buf size = some r) :
    size ≤ buf.length ∧ r.1 = buf.take size ∧ r.2 = buf.drop size := by
  unfold read_slice at h
  split at h
  · exact absurd h (by simp)
  · refine ⟨by omega, ?_, ?_⟩ <;> · cases h; rfl

/-- Helper: a failed buffer slice means not enough bytes. -/
theorem read_slice_eq_none {buf : List Nat} {size : Nat}
    (h : read_slice buf size = none) : buf.length < size := by
  unfold read_slice at h
  split at h
  · assumption
  · exact absurd h (by simp)

/-- C7 amended. Whenever bleserial.read(size) returns, it does so at the
first tick `k` at which at least `size` bytes are buffered (so it
suspends exactly until enough bytes have arrived — the configured timeout
plays no role), and it returns exactly the first `size` buffered bytes in
arrival order, removing them from the head of the buffer; hence repeated
reads consume consecutive, non-overlapping segments of the byte stream. -/
theorem read_returns_head_fifo (buf : List Nat) (size : Nat) (arr : List (List Nat))
    (r : List Nat × List Nat) (h : read_poll buf size arr = some r) :
    ∃ k, k ≤ arr.length ∧
      size ≤ (buf ++ (arr.take k).flatten).length ∧
      (∀ j < k, (buf ++ (arr.take j).flatten).length < size) ∧
      r.1 = (buf ++ (arr.take k).flatten).take size ∧
      r.2 = (buf ++ (arr.take k).flatten).drop size ∧
      r.1 ++ r.2 = buf ++ (arr.take k).flatten := by
  induction arr generalizing buf with
  | nil =>
    simp only [read_poll] at h
    obtain ⟨hle, h1, h2⟩ := read_slice_eq_some h
    exact ⟨0, Nat.le_refl 0, by simpa using hle, fun j hj => absurd hj (by omega),
      by simpa using h1, by simpa using h2, by simp [h1, h2]⟩
  | cons a rest ih =>
    simp only [read_poll] at h
    rcases hslice : read_slice buf size with _ | r0
    · rw [hslice] at h
      obtain ⟨k, hk, hlen, hmin, h1, h2, h3⟩ := ih (buf ++ a) h
      refine ⟨k + 1, by simpa using Nat.succ_le_succ hk, ?_, ?_, ?_, ?_, ?_⟩
      · simpa [List.take_succ_cons, List.append_assoc] using hlen
      · intro j hj
        match j with
        | 0 => simpa using read_slice_eq_none hslice
        | j' + 1 =>
          have := hmin j' (by omega)
          simpa [List.take_succ_cons, List.append_assoc] using this
      · simpa [List.take_succ_cons, List.append_assoc] using h1
      · simpa [List.take_succ_cons, List.append_assoc] using h2
      · simpa [List.take_succ_cons, List.append_assoc] using h3
    · rw [hslice] at h
      obtain rfl : r0 = r := by simpa using h
      obtain ⟨hle, h1, h2⟩ := read_slice_eq_some hslice
      exact ⟨0, Nat.zero_le _, by simpa using hle, fun j hj => absurd hj (by omega),
        by simpa using h1, by simpa using h2, by simp [h1, h2]⟩

/-- C7 witness. A concrete read: buffer [1,2], request 3 bytes; the third
byte arrives one tick later; read returns [1,2,3] and leaves [4]. -/
theorem read_returns_head_fifo_witness :
    ∃ k, k ≤ [[3, 4]].length ∧
      3 ≤ (([1, 2] : List Nat) ++ (([[3, 4]] : List (List Nat)).take k).flatten).length ∧
      (∀ j < k, (([1, 2] : List Nat) ++ (([[3, 4]] : List (List Nat)).take j).flatten).length < 3) ∧
      (([1, 2, 3] : List Nat), ([4] : List Nat)).1 =
        (([1, 2] : List Nat) ++ (([[3, 4]] : List (List Nat)).take k).flatten).take 3 ∧
      (([1, 2, 3] : List Nat), ([4] : List Nat)).2 =
        (([1, 2] : List Nat) ++ (([[3, 4]] : List (List Nat)).take k).flatten).drop 3 ∧
      (([1, 2, 3] : List Nat), ([4] : List Nat)).1 ++ (([1, 2, 3] : List Nat), ([4] : List Nat)).2 =
        ([1, 2] : List Nat) ++ (([[3, 4]] : List (List Nat)).take k).flatten :=
  read_returns_head_fifo [1, 2] 3 [[3, 4]] ([1, 2, 3], [4]) rfl

/-- C4. With global fast mode on and a fast-marked command: a learned
frame count of 1 yields the base wire bytes with the single ASCII
character "1" appended, and a command with no cache entry yields exactly
the base wire bytes. -/
theorem build_command_string_fast_suffix (st : OBDState) (cmd : OBDCommand)
    (hg : st.fast = true) (hf : cmd.fast = true) :
    (frameLookup st.frame_counts cmd = some 1 →
      build_command_string st cmd = cmd.command ++ [('1' : Char).toNat]) ∧
    (frameLookup st.frame_counts cmd = none →
      build_command_string st cmd = cmd.command) := by
  constructor
  · intro h
    simp only [build_command_string, h, hg, hf, Bool.and_self, if_pos]
    norm_num [pyStrNat]
    decide
  · intro h
    simp [build_command_string, h]

/-- C4 witness. The fast-suffix behaviour at a concrete command: with a
learned count of 1 the wire string is "0100" followed by "1"; with an
empty cache it is exactly "0100". -/
theorem build_command_string_fast_suffix_witness :
    (frameLookup [(⟨"SPEED", "", strBytes "0100", 6, 0, true, []⟩, 1)]
        ⟨"SPEED", "", strBytes "0100", 6, 0, true, []⟩ = some 1 →
      build_command_string ⟨.carConnected, true, none, [(⟨"SPEED", "", strBytes "0100", 6, 0, true, []⟩, 1)]⟩
        ⟨"SPEED", "", strBytes "0100", 6, 0, true, []⟩ =
        strBytes "0100" ++ [('1' : Char).toNat]) ∧
    (frameLookup ([] : List (OBDCommand × Nat)) ⟨"SPEED", "", strBytes "0100", 6, 0, true, []⟩ = none →
      build_command_string ⟨.carConnected, true, none, []⟩ ⟨"SPEED", "", strBytes "0100", 6, 0, true, []⟩ =
        strBytes "0100") := by
  constructor
  · exact fun h =>
      (build_command_string_fast_suffix ⟨.carConnected, true, none, [(⟨"SPEED", "", strBytes "0100", 6, 0, true, []⟩, 1)]⟩
        ⟨"SPEED", "", strBytes "0100", 6, 0, true, []⟩ rfl rfl).1 h
  · exact fun h =>
      (build_command_string_fast_suffix ⟨.carConnected, true, none, []⟩
        ⟨"SPEED", "", strBytes "0100", 6, 0, true, []⟩ rfl rfl).2 h

/-- C2. OBD.query consults `self.test_cmd`, which is not defined anywhere
in the OBD class: at a session status other than NOT_CONNECTED (here
ELM_CONNECTED), a query with force = False raises AttributeError instead
of returning an empty OBDResponse. -/
theorem query_unforced_raises_attribute_error :
    query (fun _ => []) (fun _ => (none : Option Unit))
        ⟨.elmConnected, true, none, []⟩
        ⟨"PIDS_A", "Supported PIDs [01-20]", strBytes "0100", 6, 0, true, []⟩ false =
      .error .attributeError := rfl

/-- Helper: bitwise and with 0 on the left is 0 (the `0 & flag` of
obd.py 204). -/
theorem land_zero_left (x : Nat) : Nat.land 0 x = 0 :=
  Nat.zero_and x

/-- C5. When the parsed response batch for the queried wire string is a
single message with empty payload data (as a literal "NO DATA" line
parses), OBD.query returns the empty OBDResponse, and does so for every
decoder (the decoder is not invoked: the result does not depend on it). -/
theorem query_no_data_returns_empty {α : Type} (send : List Nat → List Message)
    (decode : List Message → Option α) (st : OBDState) (cmd : OBDCommand) (m : Message)
    (h1 : st.status ≠ .notConnected)
    (h2 : send (build_command_string (set_header send st cmd.header) cmd) = [m])
    (h3 : m.data = []) :
    ∃ st', query send decode st cmd true = .ok (OBDResponse.empty, st') := by
  exact ⟨_, by simp only [query, if_neg h1]; norm_num [h2, h3, land_zero_left]; rfl⟩

/-- C5 witness. A concrete NO DATA batch: the adapter answers every send
with the single diagnostic message whose sole frame is the literal line
"NO DATA" and whose payload is empty; query returns the empty response. -/
theorem query_no_data_returns_empty_witness :
    ∃ st', query (fun _ => [{ frames := [{ raw := "NO DATA" }], data := [] }])
        (fun _ => (none : Option Unit)) ⟨.carConnected, true, none, []⟩
        ⟨"PIDS_A", "Supported PIDs [01-20]", strBytes "0100", 6, 0, true, []⟩ true =
      .ok (OBDResponse.empty, st') :=
  query_no_data_returns_empty _ _ _ _ { frames := [{ raw := "NO DATA" }], data := [] }
    (by decide) rfl rfl

/-- C1. For every device and timeout, constructing the ELM327 session
raises TypeError — bleserial.__init__ requires four positional arguments
but elm327.py 125 passes three — before any BLE communication (the
recorded BLE operation list is empty), through ELM327.__init__ itself,
through ELM327.create and through OBD.create. -/
theorem elm327_construction_raises_type_error (device : String) (timeout : Int) :
    elm327_init device timeout = (.error .typeError, []) ∧
    elm327_create device timeout = (.error .typeError, []) ∧
    obd_create device timeout = (.error .typeError, []) :=
  ⟨rfl, rfl, rfl⟩

/-- Helper: `keyLe` is transitive. -/
theorem keyLe_trans (a b c : Option Nat) (hab : keyLe a b) (hbc : keyLe b c) :
    keyLe a c := by
  cases a <;> cases b <;> cases c <;> simp_all [keyLe] <;> omega

/-- Helper: `keyLe` is total. -/
theorem keyLe_total (a b : Option Nat) : keyLe a b || keyLe b a := by
  cases a <;> cases b <;> simp [keyLe] <;> omega

/-- Helper: a message produced for ECU key `k` from a frame list that
contains `k` among its `tx_id`s carries `k` as its source id. -/
theorem ecuMessage_txid (pm : List Frame → Option (List Nat)) (frames : List Frame)
    (k : Option Nat) (hk : k ∈ frames.map (·.tx_id)) (m : Message)
    (hm : ecuMessage pm frames k = some m) : m.txid = k := by
  obtain ⟨fr, hfr, hfrk⟩ := List.mem_map.1 hk
  have hfr_grp : fr ∈ ecuGroup frames k :=
    List.mem_filter.2 ⟨hfr, by simp [hfrk]⟩
  obtain ⟨d, _, rfl⟩ := Option.map_eq_some'.1 hm
  cases hgrp : ecuGroup frames k with
  | nil => rw [hgrp] at hfr_grp; cases hfr_grp
  | cons f0 tl =>
    have hf0 : f0 ∈ ecuGroup frames k := by rw [hgrp]; exact List.mem_cons_self _ _
    have := (List.mem_filter.1 hf0).2
    simp only [Message.txid, hgrp]
    simpa using this

/-- C6. The message list returned by Protocol.__call__ splits into data
messages followed by the diagnostic messages of the non-hex lines in
original line order; the data messages are strictly ascending in source
id (hence at most one per distinct source-node address), for every choice
of protocol-variant parsing hooks. -/
theorem protocol_call_message_order (parse_frame : Frame → Option Frame)
    (parse_message : List Frame → Option (List Nat)) (lines : List String) :
    ∃ dataMsgs : List Message,
      protocolCall parse_frame parse_message lines = dataMsgs ++ diagMessages lines ∧
      dataMsgs.Pairwise (fun m1 m2 => keyLe m1.txid m2.txid = true ∧ m1.txid ≠ m2.txid) := by
  refine ⟨_, rfl, ?_⟩
  set frames := parsedFrames parse_frame lines with hframes
  set keys := (frames.map (·.tx_id)).dedup with hkeys
  have hnodup : (keys.mergeSort keyLe).Nodup :=
    ((List.mergeSort_perm keys keyLe).nodup_iff).2 (List.nodup_dedup _)
  have hsorted : (keys.mergeSort keyLe).Pairwise (fun a b => keyLe a b) :=
    List.sorted_mergeSort keyLe_trans keyLe_total keys
  have hstrict : (keys.mergeSort keyLe).Pairwise (fun a b => keyLe a b = true ∧ a ≠ b) :=
    hsorted.and hnodup
  apply List.pairwise_filterMap.2
  refine hstrict.imp_of_mem ?_
  intro k1 k2 h1 h2 hr
  intro m1 hm1 m2 hm2
  have hmem : ∀ k, k ∈ keys.mergeSort keyLe → k ∈ frames.map (·.tx_id) := by
    intro k hk
    exact List.mem_dedup.1 ((List.mergeSort_perm keys keyLe).mem_iff.1 hk)
  have e1 := ecuMessage_txid parse_message frames k1 (hmem k1 h1) m1 hm1
  have e2 := ecuMessage_txid parse_message frames k2 (hmem k2 h2) m2 hm2
  rw [e1, e2]
  exact hr

/-- Helper: every status may advance to CAR_CONNECTED. -/
theorem statusStepOk_car (a : OBDStatus) : statusStepOk a .carConnected := by
  cases a <;> simp [statusStepOk, OBDStatus.rank]

/-- Helper: the fresh session satisfies the invariant. -/
theorem elmInit_inv (script : List SendOutcome) : ElmInv (elmInit script) := by
  refine ⟨by simp [elmInit], by simp [elmInit], ?_⟩
  simp [TraceOk, elmInit]

/-- Helper: a status assignment that is forward-or-reset preserves the
invariant. -/
theorem setStatus_inv {st : ElmState} (h : ElmInv st) {s : OBDStatus}
    (hs : statusStepOk st.status s) : ElmInv (setStatus st s) := by
  obtain ⟨hne, hlast, hchain⟩ := h
  refine ⟨by simp [setStatus], by simp [setStatus], ?_⟩
  unfold TraceOk setStatus at *
  rw [List.chain'_append]
  refine ⟨hchain, by simp, ?_⟩
  intro x hx y hy
  simp only [List.head?_cons, Option.mem_def, Option.some.injEq] at hy
  rw [hlast] at hx
  simp only [Option.mem_def, Option.some.injEq] at hx
  subst hx; subst hy
  exact hs

/-- Helper: invariant and status tracking across one scripted exchange. -/
theorem elmSend_inv {st : ElmState} (h : ElmInv st) :
    ElmInv (elmSend st).1 ∧
      ((elmSend st).1.status = st.status ∨
        ((elmSend st).1.status = .notConnected ∧ (elmSend st).2 = [])) := by
  unfold elmSend
  split
  · rcases hs : st.script with _ | ⟨o, rest⟩
    · exact ⟨h, Or.inl rfl⟩
    · cases o
      · refine ⟨setStatus_inv ?_ (Or.inl rfl), Or.inr ⟨by simp [setStatus], rfl⟩⟩
        exact ⟨h.1, h.2.1, h.2.2⟩
      · exact ⟨⟨h.1, h.2.1, h.2.2⟩, Or.inl rfl⟩
  · exact ⟨h, Or.inl rfl⟩

/-- Helper: closing preserves the invariant and resets the status. -/
theorem elmClose_inv {st : ElmState} (h : ElmInv st) :
    ElmInv (elmClose st) ∧ (elmClose st).status = .notConnected := by
  have h1 : ElmInv (setStatus st .notConnected) := setStatus_inv h (Or.inl rfl)
  exact ⟨⟨h1.1, h1.2.1, h1.2.2⟩, rfl⟩

/-- Helper: the invariant ignores the port, protocol and script fields. -/
theorem ElmInv.with_fields {st : ElmState} (h : ElmInv st) {st' : ElmState}
    (hstat : st'.status = st.status) (htr : st'.trace = st.trace) : ElmInv st' := by
  refine ⟨?_, ?_, ?_⟩ <;> rw [htr] <;> [exact h.1; rw [hstat, h.2.1]; exact h.2.2]

/-- Helper: one acknowledged initialization command preserves the
invariant; when it succeeds the status is untouched, when it fails the
status has been reset. -/
theorem stepOkCmd_inv {st : ElmState} (h : ElmInv st) (e : Bool) :
    (∀ st', stepOkCmd e st = .ok st' → ElmInv st' ∧ st'.status = st.status) ∧
    (∀ st', stepOkCmd e st = .error st' → ElmInv st' ∧ st'.status = .notConnected) := by
  obtain ⟨hinv, hstat⟩ := elmSend_inv h
  constructor
  · intro st' hok
    simp only [stepOkCmd] at hok
    split at hok
    · cases hok
      rcases hstat with h1 | ⟨h1, h2⟩
      · exact ⟨hinv, h1⟩
      · rename_i hisok
        rw [h2] at hisok
        simp [isok] at hisok
    · cases hok
  · intro st' herr
    simp only [stepOkCmd] at herr
    split at herr
    · cases herr
    · cases herr
      exact elmClose_inv hinv

/-- Helper: the protocol-negotiation fallback loop preserves the
invariant. -/
theorem try_protocols_inv {st : ElmState} (h : ElmInv st) (ps : List String) :
    ElmInv (try_protocols st ps).1 := by
  induction ps generalizing st with
  | nil => exact h
  | cons p rest ih =>
    simp only [try_protocols]
    have h1 := (elmSend_inv h).1
    have h2 := (elmSend_inv h1).1
    split
    · exact h2.with_fields rfl rfl
    · exact ih h2

/-- Helper: protocol negotiation preserves the invariant. -/
theorem set_protocol_inv {st : ElmState} (h : ElmInv st) (protocol_ : Option String) :
    ElmInv (set_protocol st protocol_).1 := by
  cases protocol_ with
  | none =>
    have h1 := (elmSend_inv h).1
    have h2 := (elmSend_inv h1).1
    have h3 := (elmSend_inv h2).1
    simp only [set_protocol, auto_protocol]
    repeat' split
    all_goals
      first
        | exact h2
        | exact h3
        | exact h3.with_fields rfl rfl
        | exact try_protocols_inv h3 TRY_PROTOCOL_ORDER
  | some p =>
    have h1 := (elmSend_inv h).1
    have h2 := (elmSend_inv h1).1
    simp only [set_protocol, manual_protocol]
    repeat' split
    all_goals
      first
        | exact h
        | exact h2
        | exact h2.with_fields rfl rfl

/-- Helper: the voltage check preserves the invariant; from status
ELM_CONNECTED it advances to OBD_CONNECTED on success, and on an early
return the status is ELM_CONNECTED or reset. -/
theorem voltageStep_inv {st : ElmState} (h : ElmInv st)
    (hst : st.status = .elmConnected) (parseVolt : String → Option Int) :
    (∀ st', voltageStep parseVolt st = .ok st' → ElmInv st' ∧ st'.status = .obdConnected) ∧
    (∀ st', voltageStep parseVolt st = .error st' →
      ElmInv st' ∧ (st'.status = .elmConnected ∨ st'.status = .notConnected)) := by
  obtain ⟨hinv, hstat⟩ := elmSend_inv h
  have hsend_status : (elmSend st).2 ≠ [] → (elmSend st).1.status = .elmConnected := by
    intro hne
    rcases hstat with h1 | ⟨_, h2⟩
    · rw [h1, hst]
    · exact absurd h2 hne
  constructor
  · intro st' hok
    simp only [voltageStep] at hok
    split at hok
    · cases hok
    · rename_i hcond
      split at hok
      · cases hok
      · split at hok
        · cases hok
        · cases hok
          have hne : (elmSend st).2 ≠ [] := fun hnil => hcond (Or.inl hnil)
          refine ⟨setStatus_inv hinv ?_, rfl⟩
          rw [hsend_status hne]
          exact Or.inr (by simp [OBDStatus.rank])
  · intro st' herr
    simp only [voltageStep] at herr
    split at herr
    · cases herr
      have hc := elmClose_inv hinv
      exact ⟨hc.1, Or.inr hc.2⟩
    · rename_i hcond
      split at herr
      · cases herr
        have hc := elmClose_inv hinv
        exact ⟨hc.1, Or.inr hc.2⟩
      · split at herr
        · cases herr
          have hne : (elmSend st).2 ≠ [] := fun hnil => hcond (Or.inl hnil)
          exact ⟨hinv, Or.inl (hsend_status hne)⟩
        · cases herr

/-- Helper: the protocol-negotiation tail of create preserves the
invariant. -/
theorem finishProtocol_inv {st : ElmState} (h : ElmInv st) (protocol_ : Option String) :
    ElmInv (finishProtocol st protocol_) := by
  simp only [finishProtocol]
  have h1 := set_protocol_inv h protocol_
  split
  · exact setStatus_inv h1 (statusStepOk_car _)
  · exact h1

/-- Helper: sequencing an acknowledged command with a well-behaved rest
of the chain. -/
theorem seqStep_inv {st : ElmState} (h : ElmInv st) (e : Bool)
    (rest : ElmState → Except ElmState ElmState)
    (hrest : ∀ st1, ElmInv st1 → st1.status = st.status →
      (∀ st', rest st1 = .ok st' → ElmInv st' ∧ st'.status = st.status) ∧
      (∀ st', rest st1 = .error st' → ElmInv st' ∧ st'.status = .notConnected)) :
    (∀ st', seqStep e st rest = .ok st' → ElmInv st' ∧ st'.status = st.status) ∧
    (∀ st', seqStep e st rest = .error st' → ElmInv st' ∧ st'.status = .notConnected) := by
  unfold seqStep
  rcases e1 : stepOkCmd e st with s1 | s1
  · have h1 := (stepOkCmd_inv h e).2 s1 e1
    constructor
    · intro st' hx
      simp only [e1] at hx
      exact Except.noConfusion hx
    · intro st' hx
      simp only [e1, Except.error.injEq] at hx
      exact hx ▸ h1
  · have h1 := (stepOkCmd_inv h e).1 s1 e1
    constructor
    · intro st' hx
      simp only [e1] at hx
      exact (hrest s1 h1.1 h1.2).1 st' hx
    · intro st' hx
      simp only [e1] at hx
      exact (hrest s1 h1.1 h1.2).2 st' hx

/-- Helper: the six-command initialization chain preserves the invariant,
leaves the status untouched on success, and resets it on failure. -/
theorem initChain_inv {st : ElmState} (h : ElmInv st) :
    (∀ st', initChain st = .ok st' → ElmInv st' ∧ st'.status = st.status) ∧
    (∀ st', initChain st = .error st' → ElmInv st' ∧ st'.status = .notConnected) := by
  unfold initChain
  refine seqStep_inv h true _ ?_
  intro s1 h1 hs1
  rw [← hs1]
  refine seqStep_inv h1 false _ ?_
  intro s2 h2 hs2
  rw [← hs2]
  refine seqStep_inv h2 false _ ?_
  intro s3 h3 hs3
  rw [← hs3]
  refine seqStep_inv h3 false _ ?_
  intro s4 h4 hs4
  rw [← hs4]
  refine seqStep_inv h4 false _ ?_
  intro s5 h5 hs5
  rw [← hs5]
  exact stepOkCmd_inv h5 false

/-- Helper: every connection attempt leaves the session in an
invariant-respecting state. -/
theorem elmCreate_inv (openOk : Bool) (protocol_ : Option String) (check_voltage : Bool)
    (parseVolt : String → Option Int) (script : List SendOutcome) :
    ElmInv (elmCreate openOk protocol_ check_voltage parseVolt script) := by
  unfold elmCreate
  split
  · exact elmInit_inv script
  · have h0 : ElmInv { elmInit script with port := true } :=
      (elmInit_inv script).with_fields rfl rfl
    have hsend := elmSend_inv h0
    have h1 := hsend.1
    have hst1 : (elmSend { elmInit script with port := true }).1.status = .notConnected := by
      rcases hsend.2 with h' | ⟨h', _⟩
      · exact h'
      · exact h'
    rcases e1 : initChain (elmSend { elmInit script with port := true }).1 with s | s
    · simp only [e1]
      exact ((initChain_inv h1).2 s e1).1
    · simp only [e1]
      have hok := (initChain_inv h1).1 s e1
      have hs : s.status = .notConnected := hok.2.trans hst1
      have h2 : ElmInv (setStatus s .elmConnected) :=
        setStatus_inv hok.1 (Or.inr (by rw [hs]; simp [OBDStatus.rank]))
      have hst2 : (setStatus s .elmConnected).status = .elmConnected := rfl
      cases check_voltage with
      | false => exact finishProtocol_inv h2 protocol_
      | true =>
        simp only [if_pos]
        rcases e2 : voltageStep parseVolt (setStatus s .elmConnected) with sv | sv
        · simp only [e2]
          exact ((voltageStep_inv h2 hst2 parseVolt).2 sv e2).1
        · simp only [e2]
          exact finishProtocol_inv ((voltageStep_inv h2 hst2 parseVolt).1 sv e2).1 protocol_

/-- C9. Along every connection attempt the status history only moves
forward through NOT_CONNECTED → ELM_CONNECTED → OBD_CONNECTED →
CAR_CONNECTED, except for resets to NOT_CONNECTED on teardown or fatal
I/O failure (and the subsequent close keeps that shape); moreover, when
the ATE0 ("echo off") step answers anything that does not acknowledge
"OK", the attempt ends at ELM_CONNECTED or below and CAR_CONNECTED never
appears in the history. -/
theorem elm_create_status_forward (openOk : Bool) (protocol_ : Option String)
    (check_voltage : Bool) (parseVolt : String → Option Int) (script : List SendOutcome) :
    TraceOk (elmCreate openOk protocol_ check_voltage parseVolt script).trace ∧
    TraceOk (elmClose (elmCreate openOk protocol_ check_voltage parseVolt script)).trace ∧
    (∀ atzR ate0R rest, openOk = true → script = .lines atzR :: .lines ate0R :: rest →
      isok ate0R true = false →
      (elmCreate openOk protocol_ check_voltage parseVolt script).status.rank ≤
          OBDStatus.elmConnected.rank ∧
        OBDStatus.carConnected ∉ (elmCreate openOk protocol_ check_voltage parseVolt script).trace) := by
  refine ⟨(elmCreate_inv openOk protocol_ check_voltage parseVolt script).2.2,
    ((elmClose_inv (elmCreate_inv openOk protocol_ check_voltage parseVolt script)).1).2.2, ?_⟩
  intro atzR ate0R rest hopen hscript hfail
  subst hopen
  subst hscript
  simp only [elmCreate, elmInit, elmSend, initChain, seqStep, stepOkCmd, elmError, elmClose,
    setStatus, hfail, Bool.not_true, Bool.false_eq_true, if_false, if_true]
  simp [OBDStatus.rank]

/-- C9 witness. A concrete attempt whose ATE0 step answers "NO": the
history is forward-or-reset, the attempt ends at or below ELM_CONNECTED
and CAR_CONNECTED never appears. -/
theorem elm_create_status_forward_witness :
    TraceOk (elmCreate true none true (fun _ => none)
      [.lines ["x"], .lines ["NO"]]).trace ∧
    ((elmCreate true none true (fun _ => none)
        [.lines ["x"], .lines ["NO"]]).status.rank ≤ OBDStatus.elmConnected.rank ∧
      OBDStatus.carConnected ∉
        (elmCreate true none true (fun _ => none) [.lines ["x"], .lines ["NO"]]).trace) :=
  ⟨(elm_create_status_forward true none true (fun _ => none) [.lines ["x"], .lines ["NO"]]).1,
    (elm_create_status_forward true none true (fun _ => none) [.lines ["x"], .lines ["NO"]]).2.2
      ["x"] ["NO"] [] rfl rfl (by decide)⟩

/-- Helper: a scripted exchange never touches the low-power flag. -/
theorem elmSend_low_power (st : ElmState) : (elmSend st).1.low_power = st.low_power := by
  unfold elmSend
  split
  · split <;> rfl
  · rfl

/-- C10 counterexample. ELM_LP_ACTIVE is literally the generic "OK", and
a response consisting of only a generic "OK" line does make
ELM327.low_power record low-power mode as active. -/
theorem low_power_generic_ok_sets_flag :
    ELM_LP_ACTIVE = "OK" ∧
    (low_power ⟨.elmConnected, true, false, none, [.lines ["OK"]], [.notConnected]⟩).1.low_power =
      true :=
  ⟨rfl, rfl⟩

/-- C10 amended. On a connected session, ELM327.low_power records
low-power mode as active exactly when the adapter's response contains a
line equal to "OK" — the ELM_LP_ACTIVE acknowledgement, which is the
generic "OK" itself, not a string distinct from it; otherwise the flag is
left unchanged. -/
theorem low_power_ack_is_generic_ok (st : ElmState) (h : st.status ≠ .notConnected) :
    ELM_LP_ACTIVE = "OK" ∧
    (low_power st).1.low_power = ((elmSend st).2.contains "OK" || st.low_power) := by
  refine ⟨rfl, ?_⟩
  simp only [low_power, if_neg h]
  split
  · rename_i hc
    show true = ((elmSend st).2.contains "OK" || st.low_power)
    rw [hc, Bool.true_or]
  · rename_i hc
    have hc' : (elmSend st).2.contains "OK" = false := by
      cases hcc : (elmSend st).2.contains "OK"
      · rfl
      · exact absurd hcc hc
    show (elmSend st).1.low_power = ((elmSend st).2.contains "OK" || st.low_power)
    rw [elmSend_low_power, hc', Bool.false_or]

/-- C10 witness. The amended acknowledgement behaviour at a concrete
connected session whose adapter answers "ELM327" (no OK line): the flag
stays down. -/
theorem low_power_ack_is_generic_ok_witness :
    ELM_LP_ACTIVE = "OK" ∧
    (low_power ⟨.elmConnected, true, false, none, [.lines ["ELM327"]], [.notConnected]⟩).1.low_power =
      ((elmSend ⟨.elmConnected, true, false, none, [.lines ["ELM327"]], [.notConnected]⟩).2.contains "OK" ||
        false) :=
  low_power_ack_is_generic_ok _ (by decide)

/-- C6 witness. The generic ordering guarantee instantiated at the spec's
literal fixture: two identical single-frame CAN responses from node 0x7E8
under the demonstration hooks. -/
theorem protocol_call_message_order_witness :
    ∃ dataMsgs : List Message,
      protocolCall demoParseFrame demoParseMessage ["7E8034100FFFFFFF", "7E8034100FFFFFFF"] =
        dataMsgs ++ diagMessages ["7E8034100FFFFFFF", "7E8034100FFFFFFF"] ∧
      dataMsgs.Pairwise (fun m1 m2 => keyLe m1.txid m2.txid = true ∧ m1.txid ≠ m2.txid) :=
  protocol_call_message_order demoParseFrame demoParseMessage
    ["7E8034100FFFFFFF", "7E8034100FFFFFFF"]

end NissanLeafObdBle
